import Mathlib

/-!
Shallow embedding of the EmailFollowUpApp follow-up lifecycle engine
(`utils.py`, `config.py`, `database.py`, `imap_client.py`, `smtp_client.py`,
`email_manager.py`, `scheduler.py`) and proofs about its behaviour.

Modelling conventions:
* timestamps are seconds since an arbitrary epoch, as `Nat`; one day is 86400
  seconds (Python `timedelta(days = d)`)
* the SQLite store is a list of rows plus the AUTOINCREMENT counter; SQLite
  value-affinity rules for the two queries the engine issues are modelled
  explicitly (`sqlTextOf`, `sqlIdMatches`)
* the IMAP and SMTP collaborators are modelled as states describing what the
  network would answer; exceptions that the Python code lets escape a
  collaborator call are modelled with `Except Unit`
* the md5 hexdigest of `generate_email_id` is modelled by its (deterministic)
  preimage string: no claim depends on the digest itself, only on determinism
* `str.lower` is modelled by `String.toLower` (ASCII; every configured
  pattern the claims exercise is ASCII)
-/

namespace EmailFollowUp

/-- Whether `pat` is a prefix of `l` (over characters). -/
def charsPrefix : List Char → List Char → Bool
  | [], _ => true
  | _ :: _, [] => false
  | a :: xs, b :: ys => a == b && charsPrefix xs ys

/-- Whether `pat` occurs inside `l` (over characters). -/
def charsContains (pat : List Char) : List Char → Bool
  | [] => pat.isEmpty
  | c :: rest => charsPrefix pat (c :: rest) || charsContains pat rest

/-- Python `needle in haystack` on strings (substring containment). -/
def strContains (hay pat : String) : Bool :=
  charsContains pat.data hay.data

/-- Python `str.lower`, over the characters (ASCII case mapping). -/
def str_lower (s : String) : String :=
  String.mk (s.data.map Char.toLower)

/-- Python `str.strip`: drop leading and trailing whitespace. -/
def strTrim (s : String) : String :=
  String.mk
    (((s.data.dropWhile Char.isWhitespace).reverse.dropWhile
        Char.isWhitespace).reverse)

/-- Python `str.split(sep)` for a one-character separator (empty pieces
kept). -/
def splitChar (sep : Char) : List Char → List (List Char)
  | [] => [[]]
  | c :: rest =>
    let r := splitChar sep rest
    if c == sep then [] :: r
    else
      match r with
      | [] => [[c]]
      | h :: t => (c :: h) :: t

/-- `utils.EMAIL_PATTERN` character class for the local part:
`[a-zA-Z0-9._%+-]`. -/
def isLocalChar (c : Char) : Bool :=
  c.isAlpha || c.isDigit || c = '.' || c = '_' || c = '%' || c = '+' || c = '-'

/-- `utils.EMAIL_PATTERN` character class for the domain part:
`[a-zA-Z0-9.-]`. -/
def isDomainChar (c : Char) : Bool :=
  c.isAlpha || c.isDigit || c = '.' || c = '-'

/-- `utils.validate_email`: full match of
`[a-zA-Z0-9._%+-]+@[a-zA-Z0-9.-]+\.[a-zA-Z]with 2 or more letters`.
The anchored regex matches exactly when the string splits at a single `@`
into a non-empty local part over its class, and a domain whose segment after
the last dot is two or more letters with a non-empty class-valid part before
that dot. -/
def validate_email (em : String) : Bool :=
  match splitChar '@' em.data with
  | [localPart, domain] =>
    let tldRev := domain.reverse.takeWhile (fun c => c ≠ '.')
    let restRev := domain.reverse.dropWhile (fun c => c ≠ '.')
    !localPart.isEmpty && localPart.all isLocalChar &&
    decide (2 ≤ tldRev.length) && tldRev.all Char.isAlpha &&
    decide (2 ≤ restRev.length) && (restRev.drop 1).all isDomainChar
  | _ => false

/-- `utils.calculate_followup_date`: `sent_date + timedelta(days = delay_days)`. -/
def calculate_followup_date (sent_date : Nat) (delay_days : Nat) : Nat :=
  sent_date + delay_days * 86400

/-- `utils.format_date`. The strftime calendar rendering is abstracted to a
canonical decimal rendering of the timestamp; no claim depends on the
formatted text, only on it being a total function of the timestamp. -/
def format_date (date : Nat) : String :=
  toString date

/-- Drop a prefix of `s` matching `pre` case-insensitively, when present. -/
def ciPrefixDrop (s : String) (pre : String) : Option String :=
  if str_lower (String.mk (s.data.take pre.data.length)) = str_lower pre then
    some (String.mk (s.data.drop pre.data.length))
  else none

/-- `utils.sanitize_subject`: remove one leading `Re:`/`Fwd:`/`FW:`/`Forward:`
(case-insensitive, the alternation tried in regex order) together with the
following whitespace, then strip; the final `.strip()` subsumes the regex
whitespace removal. -/
def sanitize_subject (subject : String) : String :=
  let dropped :=
    match ciPrefixDrop subject "Re:" with
    | some r => r
    | none =>
      match ciPrefixDrop subject "Fwd:" with
      | some r => r
      | none =>
        match ciPrefixDrop subject "FW:" with
        | some r => r
        | none =>
          match ciPrefixDrop subject "Forward:" with
          | some r => r
          | none => subject
  strTrim dropped

/-- `utils.generate_email_id`: md5 hexdigest of
`sender + subject + date.isoformat()`, modelled by the preimage string
(deterministic exactly like the digest; no claim relies on collisions). -/
def generate_email_id (sender subject : String) (date : Nat) : String :=
  sender ++ subject ++ toString date

/-- Follow-up record status values written by the application. -/
inductive Status
  | pending
  | sent
  | responded
  | failed
deriving DecidableEq, Repr

/-- Metadata stored (as JSON text in SQLite) with each follow-up;
modelled structurally. -/
structure FollowupMetadata where
  original_message_id : Option String
  template_name : String
  custom_variables : List (String × String)
deriving DecidableEq, Repr

/-- One row of the `followups` table. -/
structure FollowupRecord where
  id : Nat
  email_id : String
  sender : String
  recipient : String
  subject : String
  sent_date : Nat
  followup_date : Nat
  delay_days : Nat
  status : Status
  followup_count : Nat
  last_check_date : Option Nat
  metadata : FollowupMetadata
deriving DecidableEq, Repr

/-- A dynamically-typed value handed to a SQLite query parameter. -/
inductive SqlValue
  | int (n : Nat)
  | text (s : String)
deriving DecidableEq, Repr

/-- TEXT-affinity comparison used by `WHERE email_id = ?`: a parameter with
no affinity compared against the TEXT column gets text affinity applied. -/
def sqlTextOf : SqlValue → String
  | .int n => toString n
  | .text s => s

/-- The value of a text as a decimal numeral, when it is one: SQLite numeric
affinity applied to a text parameter (same digits-only test and fold as
`String.toNat?`, written structurally). -/
def strToNat (s : String) : Option Nat :=
  if !s.data.isEmpty && s.data.all Char.isDigit then
    some (s.data.foldl (fun n c => n * 10 + (c.toNat - 48)) 0)
  else none

/-- INTEGER-affinity comparison used by `WHERE id = ?`: a text parameter gets
numeric affinity applied and matches when it denotes the row id. -/
def sqlIdMatches (idcol : Nat) : SqlValue → Bool
  | .int n => idcol == n
  | .text s =>
    match strToNat s with
    | some n => idcol == n
    | none => false

/-- `DatabaseManager.get_followup_by_email_id`:
`SELECT * FROM followups WHERE email_id = ?` (first row, else `None`). -/
def get_followup_by_email_id (rows : List FollowupRecord) (key : SqlValue) :
    Option FollowupRecord :=
  rows.find? (fun r => r.email_id == sqlTextOf key)

/-- `DatabaseManager.update_followup_status`:
`UPDATE followups SET status = ?, [followup_count = followup_count + 1,]
last_check_date = CURRENT_TIMESTAMP WHERE id = ?`. -/
def update_followup_status (rows : List FollowupRecord) (fid : SqlValue)
    (status : Status) (increment_count : Bool) (now : Nat) :
    List FollowupRecord :=
  rows.map fun r =>
    if sqlIdMatches r.id fid then
      { r with
        status := status
        followup_count := if increment_count then r.followup_count + 1
                          else r.followup_count
        last_check_date := some now }
    else r

/-- Insert a row into a list kept in ascending `followup_date` order. -/
def insert_by_date (r : FollowupRecord) :
    List FollowupRecord → List FollowupRecord
  | [] => [r]
  | x :: xs =>
    if r.followup_date ≤ x.followup_date then r :: x :: xs
    else x :: insert_by_date r xs

/-- `ORDER BY followup_date ASC`. -/
def sort_by_date : List FollowupRecord → List FollowupRecord
  | [] => []
  | x :: xs => insert_by_date x (sort_by_date xs)

/-- `DatabaseManager.get_pending_followups`:
`SELECT * FROM followups WHERE status = 'pending' AND
followup_date <= CURRENT_TIMESTAMP ORDER BY followup_date ASC`. -/
def get_pending_followups (rows : List FollowupRecord) (now : Nat) :
    List FollowupRecord :=
  sort_by_date (rows.filter fun r =>
    r.status == Status.pending && decide (r.followup_date ≤ now))

/-- Errors raised by the modelled store. -/
inductive DbError
  | uniqueViolation
deriving DecidableEq, Repr

/-- The SQLite store: rows plus the AUTOINCREMENT counter. -/
structure DbState where
  rows : List FollowupRecord
  next_id : Nat
deriving DecidableEq, Repr

/-- Row data supplied to `DatabaseManager.add_followup`. -/
structure FollowupData where
  email_id : String
  sender : String
  recipient : String
  subject : String
  sent_date : Nat
  followup_date : Nat
  delay_days : Nat
  metadata : FollowupMetadata
deriving DecidableEq, Repr

/-- `DatabaseManager.add_followup`: INSERT with status `'pending'` and
count 0; the UNIQUE constraint on `email_id` raises (IntegrityError) and the
transaction is rolled back, leaving the store unchanged. -/
def db_add_followup (st : DbState) (fd : FollowupData) :
    Except DbError (DbState × Nat) :=
  if st.rows.any (fun r => r.email_id == fd.email_id) then
    Except.error DbError.uniqueViolation
  else
    let row : FollowupRecord :=
      { id := st.next_id
        email_id := fd.email_id
        sender := fd.sender
        recipient := fd.recipient
        subject := fd.subject
        sent_date := fd.sent_date
        followup_date := fd.followup_date
        delay_days := fd.delay_days
        status := Status.pending
        followup_count := 0
        last_check_date := none
        metadata := fd.metadata }
    Except.ok ({ rows := st.rows ++ [row], next_id := st.next_id + 1 },
               st.next_id)

/-- `config.AUTO_REPLY_PATTERNS`. -/
def AUTO_REPLY_PATTERNS : List String :=
  ["absent du bureau", "out of office", "en congés", "automatique",
   "automatic reply", "vacation response",
   "accusé de réception automatique", "message automatique"]

/-- `config.DEFAULT_FOLLOWUP_TEMPLATE`. -/
def DEFAULT_FOLLOWUP_TEMPLATE : String :=
  "\nBonjour {DESTINATAIRE},\n\nJe me permets de revenir vers vous concernant mon email du {DATE_ENVOI} à propos de \x22{SUJET}\x22.\n\nN\x27ayant pas reçu de réponse, je souhaitais m\x27assurer que vous aviez bien reçu mon message et que celui-ci avait retenu votre attention.\n\nCordialement,\n{EXPEDITEUR}\n"

/-- A message as returned by `IMAPClient._parse_email_message`. -/
structure EmailInfo where
  subject : String
  from_addr : String
  date : Nat
  body : String
  message_id : String
  in_reply_to : String
  references : String
  headers : List (String × String)
deriving DecidableEq, Repr

/-- The hard-coded list of `IMAPClient._is_auto_reply` header names. -/
def auto_reply_headers : List String :=
  ["auto-submitted", "x-auto-response-suppress", "x-autorespond",
   "x-autoreply"]

/-- `IMAPClient._is_auto_reply`: true when one of the four marker names is a
key of the parsed header dict (exact, case-sensitive dict membership), or the
lower-cased body contains a lower-cased configured pattern. -/
def is_auto_reply (m : EmailInfo) : Bool :=
  auto_reply_headers.any (fun h => m.headers.any (fun kv => kv.1 == h))
  || AUTO_REPLY_PATTERNS.any (fun p =>
      strContains (str_lower m.body) (str_lower p))

/-- State of the IMAP collaborator: whether connected, the messages the
server would return, and which searches raise a non-`IMAP4.error` exception
(for example while parsing a fetched message), keyed by the searched
correlation key. -/
structure ImapState where
  is_connected : Bool
  inbox : List EmailInfo
  parse_raises : String → Bool

/-- The IMAP server answering `SUBJECT "q"`: messages whose subject contains
the query, case-insensitively. -/
def imap_search_subject (inbox : List EmailInfo) (q : String) :
    List EmailInfo :=
  inbox.filter fun m => strContains (str_lower m.subject) (str_lower q)

/-- `IMAPClient.check_for_replies`: not connected (or `IMAP4.error`) gives
`[]`; an exception outside `IMAP4.error` escapes; otherwise the subject
search results filtered to messages whose references or in-reply-to contain
the correlation key and that are not auto-replies. -/
def imap_check_for_replies (imap : ImapState)
    (original_email_id subject : String) : Except Unit (List EmailInfo) :=
  if !imap.is_connected then Except.ok []
  else if imap.parse_raises original_email_id then Except.error ()
  else
    Except.ok ((imap_search_subject imap.inbox
        (sanitize_subject subject)).filter fun m =>
      (strContains m.references original_email_id
        || strContains m.in_reply_to original_email_id)
      && !(is_auto_reply m))

/-- State of the SMTP collaborator: connection flag, which recipients make
the transport raise outside `SMTPException`, and the transport outcome per
recipient (`none` models an `SMTPException`, caught and reported as
failure). -/
structure SmtpState where
  is_connected : Bool
  username : String
  send_raises : String → Bool
  send_result : String → Option String

/-- `SMTPClient.send_email` (message-id result): not connected or invalid
recipient reports failure; a non-`SMTPException` exception escapes;
otherwise the transport outcome. -/
def smtp_send_email (smtp : SmtpState) (to_email _subject _body : String) :
    Except Unit (Option String) :=
  if !smtp.is_connected then Except.ok none
  else if !validate_email to_email then Except.ok none
  else if smtp.send_raises to_email then Except.error ()
  else Except.ok (smtp.send_result to_email)

/-- Opening-brace character, written by code point to keep it out of
literals. -/
def lbrace : Char := Char.ofNat 123

/-- Closing-brace character. -/
def rbrace : Char := Char.ofNat 125

/-- Python `template.format(**vars)` restricted to the plain `[NAME]`
placeholders the application uses (brackets standing for braces): `none`
models the `KeyError`/`ValueError` raised for an unbound or unterminated
placeholder. The second argument is true inside a placeholder, the third
accumulates the placeholder name. -/
def renderAux (vars : List (String × String)) :
    List Char → Bool → List Char → Option (List Char)
  | [], false, _ => some []
  | [], true, _ => none
  | c :: rest, false, acc =>
    if c = lbrace then renderAux vars rest true []
    else (renderAux vars rest false acc).map (c :: ·)
  | c :: rest, true, acc =>
    if c = rbrace then
      match List.lookup (String.mk acc) vars with
      | none => none
      | some v => (renderAux vars rest false []).map (v.data ++ ·)
    else renderAux vars rest true (acc ++ [c])

/-- `str.format` over a whole template. -/
def renderTemplate (t : String) (vars : List (String × String)) :
    Option String :=
  (renderAux vars t.data false []).map String.mk

/-- `SMTPClient.send_followup`: format the template (a `KeyError` or
`ValueError` is caught and reported as `None`), then send with subject
`"Re: " + subject` threading back to the original message id. -/
def smtp_send_followup (smtp : SmtpState) (to_email subject : String)
    (_original_message_id : Option String) (followup_template : String)
    (template_vars : List (String × String)) : Except Unit (Option String) :=
  match renderTemplate followup_template template_vars with
  | none => Except.ok none
  | some body => smtp_send_email smtp to_email ("Re: " ++ subject) body

/-- The template variables built by `EmailManager.send_followup`; the
`dict.update` with the metadata custom variables lets those override the
standard five, modelled by first-match lookup order. -/
def template_vars (f : FollowupRecord) : List (String × String) :=
  f.metadata.custom_variables ++
    [("DESTINATAIRE", f.recipient), ("SUJET", f.subject),
     ("DATE_ENVOI", format_date f.sent_date),
     ("DATE_RELANCE", format_date f.followup_date),
     ("EXPEDITEUR", f.sender)]

/-- `EmailManager.check_for_responses`: look the record up by the given
identifier, search the mailbox for genuine replies, and on success mark the
record `responded`; a missing record, an empty reply list, or a caught
exception leaves the store unchanged and returns false. -/
def check_for_responses (imap : ImapState) (rows : List FollowupRecord)
    (now : Nat) (followup_id : SqlValue) : List FollowupRecord × Bool :=
  match get_followup_by_email_id rows followup_id with
  | none => (rows, false)
  | some f =>
    match imap_check_for_replies imap f.email_id f.subject with
    | Except.error _ => (rows, false)
    | Except.ok replies =>
      if replies.isEmpty then (rows, false)
      else (update_followup_status rows followup_id Status.responded false now,
            true)

/-- `EmailManager.send_followup`: look the record up, stop when a response
is found, otherwise render and send the follow-up; transport success updates
the status to `sent` with the count incremented, transport failure or a
caught exception leaves the store as the response check left it and returns
false. -/
def send_followup (imap : ImapState) (smtp : SmtpState)
    (rows : List FollowupRecord) (now : Nat) (followup_id : SqlValue) :
    List FollowupRecord × Bool :=
  match get_followup_by_email_id rows followup_id with
  | none => (rows, false)
  | some f =>
    let checked := check_for_responses imap rows now followup_id
    if checked.2 then (checked.1, true)
    else
      match smtp_send_followup smtp f.recipient f.subject
          f.metadata.original_message_id DEFAULT_FOLLOWUP_TEMPLATE
          (template_vars f) with
      | Except.error _ => (checked.1, false)
      | Except.ok none => (checked.1, false)
      | Except.ok (some _) =>
        (update_followup_status checked.1 followup_id Status.sent true now,
         true)

/-- One iteration of the `EmailManager.process_pending_followups` loop for a
pending row: skip it when a response is found, otherwise attempt the
follow-up; the row identifier passed along is the integer primary key. -/
def processOne (imap : ImapState) (smtp : SmtpState) (now : Nat)
    (rows : List FollowupRecord) (f : FollowupRecord) :
    List FollowupRecord :=
  let fid := SqlValue.int f.id
  let checked := check_for_responses imap rows now fid
  if checked.2 then checked.1
  else (send_followup imap smtp checked.1 now fid).1

/-- `EmailManager.process_pending_followups`: fetch the due pending rows and
run the per-record step over each in order. -/
def process_pending_followups (imap : ImapState) (smtp : SmtpState)
    (rows : List FollowupRecord) (now : Nat) : List FollowupRecord :=
  (get_pending_followups rows now).foldl (processOne imap smtp now) rows

/-- Input to `EmailManager.add_followup`. -/
structure EmailData where
  sender : String
  recipient : String
  subject : String
  sent_date : Nat
  delay_days : Nat
  message_id : Option String
  template_name : String
  template_variables : List (String × String)
deriving DecidableEq, Repr

/-- The `followup_data` dict built by `EmailManager.add_followup`: the
correlation key and follow-up date derived from the caller data. -/
def followup_data_of (e : EmailData) : FollowupData :=
  { email_id := generate_email_id e.sender e.subject e.sent_date
    sender := e.sender
    recipient := e.recipient
    subject := e.subject
    sent_date := e.sent_date
    followup_date := calculate_followup_date e.sent_date e.delay_days
    delay_days := e.delay_days
    metadata :=
      { original_message_id := e.message_id
        template_name := e.template_name
        custom_variables := e.template_variables } }

/-- `EmailManager.add_followup`: derive the correlation key and follow-up
date, insert the row; the store exception is caught and surfaced as `None`
with the store rolled back. -/
def add_followup (st : DbState) (e : EmailData) : DbState × Option Nat :=
  match db_add_followup st (followup_data_of e) with
  | Except.ok (st', fid) => (st', some fid)
  | Except.error _ => (st, none)

/-- The Qt signals the `Scheduler` emits. -/
inductive SchedEvent
  | check_started
  | check_completed (ok : Bool)
  | error_occurred
deriving DecidableEq, Repr

/-- Observable state of `Scheduler`: the running flag, whether the periodic
`QTimer` is armed, the bookkeeping fields, a counter of reconciliation
invocations (`process_pending_followups` calls), and the emitted signals in
order. -/
structure SchedulerState where
  is_running : Bool
  timer_active : Bool
  last_check : Option Nat
  error_count : Nat
  max_errors : Nat
  cycles : Nat
  events : List SchedEvent
deriving DecidableEq, Repr

/-- `Scheduler.stop`: when running, stop the timer and clear the flag;
otherwise only a warning is logged. -/
def scheduler_stop (st : SchedulerState) : SchedulerState :=
  if st.is_running then { st with timer_active := false, is_running := false }
  else st

/-- `Scheduler.check_emails`, parameterised by whether the reconciliation
this cycle runs succeeds or raises: emit `check_started`, run the
reconciliation, then on success reset the error count and emit
`check_completed True`; on an escaping exception increment the error count,
emit `check_completed False` and one `error_occurred`, and stop the
scheduler once the count reaches the maximum. -/
def check_emails (st : SchedulerState) (now : Nat) (cycle_ok : Bool) :
    SchedulerState :=
  if cycle_ok then
    { st with
      cycles := st.cycles + 1
      last_check := some now
      error_count := 0
      events := st.events ++
        [SchedEvent.check_started, SchedEvent.check_completed true] }
  else
    let st1 :=
      { st with
        cycles := st.cycles + 1
        error_count := st.error_count + 1
        events := st.events ++
          [SchedEvent.check_started, SchedEvent.check_completed false,
           SchedEvent.error_occurred] }
    if st1.max_errors ≤ st1.error_count then scheduler_stop st1 else st1

/-- `Scheduler.start`: a no-op when already running; otherwise arm the timer,
set the flag, reset the error count and run an initial check. -/
def scheduler_start (st : SchedulerState) (now : Nat) (cycle_ok : Bool) :
    SchedulerState :=
  if st.is_running then st
  else
    check_emails
      { st with
        timer_active := true
        is_running := true
        last_check := some now
        error_count := 0 } now cycle_ok

/-- `Scheduler.force_check`: when running, stop the timer, run one check and
start the timer again; when not running, only a warning is logged and
nothing happens. -/
def force_check (st : SchedulerState) (now : Nat) (cycle_ok : Bool) :
    SchedulerState :=
  if st.is_running then
    let st2 := check_emails { st with timer_active := false } now cycle_ok
    { st2 with timer_active := true }
  else st

/-- `n` consecutive timer fires whose reconciliation raises. -/
def failN : Nat → SchedulerState → Nat → SchedulerState
  | 0, st, _ => st
  | n + 1, st, now => failN n (check_emails st now false) now

/-! Helper lemmas. -/

theorem check_emails_max_errors (st : SchedulerState) (now : Nat) (ok : Bool) :
    (check_emails st now ok).max_errors = st.max_errors := by
  unfold check_emails scheduler_stop
  split
  · rfl
  · dsimp only
    split
    · split <;> rfl
    · rfl

theorem check_emails_fail_count (st : SchedulerState) (now : Nat) :
    (check_emails st now false).error_count = st.error_count + 1 := by
  unfold check_emails scheduler_stop
  simp only [Bool.false_eq_true, if_false]
  split
  · split <;> rfl
  · rfl

theorem check_emails_keeps_stopped (st : SchedulerState) (now : Nat)
    (ok : Bool) (h : st.is_running = false) :
    (check_emails st now ok).is_running = false := by
  unfold check_emails scheduler_stop
  split
  · exact h
  · dsimp only
    split
    · split
      · rfl
      · exact h
    · exact h

theorem check_emails_fatal (st : SchedulerState) (now : Nat)
    (h : st.max_errors ≤ st.error_count + 1) :
    (check_emails st now false).is_running = false
    ∧ (check_emails st now false).events = st.events ++
        [SchedEvent.check_started, SchedEvent.check_completed false,
         SchedEvent.error_occurred] := by
  unfold check_emails scheduler_stop
  simp only [Bool.false_eq_true, if_false]
  rw [if_pos (by simpa using h)]
  split
  · exact ⟨rfl, rfl⟩
  · next hrun =>
    refine ⟨?_, rfl⟩
    simpa using hrun

theorem failN_stops (now : Nat) :
    ∀ n st, st.max_errors ≤ st.error_count + n → 1 ≤ n →
      (failN n st now).is_running = false := by
  intro n
  induction n with
  | zero => intro st _ h1; omega
  | succ k ih =>
    intro st hbound _
    show (failN k (check_emails st now false) now).is_running = false
    cases k with
    | zero =>
      exact (check_emails_fatal st now (by omega)).1
    | succ j =>
      apply ih
      · rw [check_emails_max_errors, check_emails_fail_count]
        omega
      · omega

theorem mem_insert_by_date {x r : FollowupRecord}
    {l : List FollowupRecord} :
    x ∈ insert_by_date r l ↔ x = r ∨ x ∈ l := by
  induction l with
  | nil => simp [insert_by_date]
  | cons a as ih =>
    unfold insert_by_date
    split
    · simp
    · simp [ih]
      tauto

theorem mem_sort_by_date {x : FollowupRecord} {l : List FollowupRecord} :
    x ∈ sort_by_date l ↔ x ∈ l := by
  induction l with
  | nil => simp [sort_by_date]
  | cons a as ih => simp [sort_by_date, mem_insert_by_date, ih]

theorem check_for_responses_cases (imap : ImapState)
    (rows : List FollowupRecord) (now : Nat) (fid : SqlValue) :
    check_for_responses imap rows now fid = (rows, false)
    ∨ check_for_responses imap rows now fid =
        (update_followup_status rows fid Status.responded false now, true) := by
  unfold check_for_responses
  split
  · exact Or.inl rfl
  · split
    · exact Or.inl rfl
    · split
      · exact Or.inl rfl
      · exact Or.inr rfl

theorem check_for_responses_false_store (imap : ImapState)
    (rows : List FollowupRecord) (now : Nat) (fid : SqlValue)
    (h : (check_for_responses imap rows now fid).2 = false) :
    check_for_responses imap rows now fid = (rows, false) := by
  rcases check_for_responses_cases imap rows now fid with hc | hc
  · exact hc
  · rw [hc] at h
    simp at h

theorem send_followup_cases (imap : ImapState) (smtp : SmtpState)
    (rows : List FollowupRecord) (now : Nat) (fid : SqlValue) :
    send_followup imap smtp rows now fid = (rows, false)
    ∨ send_followup imap smtp rows now fid =
        (update_followup_status rows fid Status.responded false now, true)
    ∨ send_followup imap smtp rows now fid =
        (update_followup_status rows fid Status.sent true now, true) := by
  unfold send_followup
  split
  · exact Or.inl rfl
  · dsimp only
    split
    · next htrue =>
      rcases check_for_responses_cases imap rows now fid with hc | hc
      · rw [hc] at htrue
        simp at htrue
      · rw [hc]
        exact Or.inr (Or.inl rfl)
    · next hfalse =>
      have hc := check_for_responses_false_store imap rows now fid
        (by simpa using hfalse)
      rw [hc]
      split
      · exact Or.inl rfl
      · exact Or.inl rfl
      · exact Or.inr (Or.inr rfl)

/-- One store evolves from another by per-record forward status writes only:
every surviving row comes from a row with the same id, unchanged or
rewritten to `sent` or `responded`. -/
def status_forward (old new : List FollowupRecord) : Prop :=
  ∀ r' ∈ new, ∃ r ∈ old, r.id = r'.id ∧
    (r'.status = r.status ∨ r'.status = Status.sent
      ∨ r'.status = Status.responded)

theorem status_forward_refl (rows : List FollowupRecord) :
    status_forward rows rows := by
  intro r' hr'
  exact ⟨r', hr', rfl, Or.inl rfl⟩

theorem status_forward_trans {a b c : List FollowupRecord}
    (h1 : status_forward a b) (h2 : status_forward b c) :
    status_forward a c := by
  intro r'' hc
  obtain ⟨r', hb, hid', hst'⟩ := h2 r'' hc
  obtain ⟨r, ha, hid, hst⟩ := h1 r' hb
  refine ⟨r, ha, hid.trans hid', ?_⟩
  rcases hst' with h | h | h
  · rw [h]
    exact hst
  · exact Or.inr (Or.inl h)
  · exact Or.inr (Or.inr h)

theorem status_forward_update (rows : List FollowupRecord) (fid : SqlValue)
    (stat : Status) (inc : Bool) (now : Nat)
    (hstat : stat = Status.sent ∨ stat = Status.responded) :
    status_forward rows (update_followup_status rows fid stat inc now) := by
  intro r' hr'
  unfold update_followup_status at hr'
  obtain ⟨r, hr, heq⟩ := List.mem_map.mp hr'
  refine ⟨r, hr, ?_, ?_⟩
  · by_cases hm : sqlIdMatches r.id fid
    · rw [if_pos hm] at heq
      rw [← heq]
    · rw [if_neg hm] at heq
      rw [← heq]
  · by_cases hm : sqlIdMatches r.id fid
    · rw [if_pos hm] at heq
      rcases hstat with h | h
      · exact Or.inr (Or.inl (by rw [← heq, h]))
      · exact Or.inr (Or.inr (by rw [← heq, h]))
    · rw [if_neg hm] at heq
      exact Or.inl (by rw [← heq])

theorem status_forward_check (imap : ImapState) (rows : List FollowupRecord)
    (now : Nat) (fid : SqlValue) :
    status_forward rows (check_for_responses imap rows now fid).1 := by
  rcases check_for_responses_cases imap rows now fid with hc | hc <;> rw [hc]
  · exact status_forward_refl rows
  · exact status_forward_update rows fid Status.responded false now
      (Or.inr rfl)

theorem status_forward_send (imap : ImapState) (smtp : SmtpState)
    (rows : List FollowupRecord) (now : Nat) (fid : SqlValue) :
    status_forward rows (send_followup imap smtp rows now fid).1 := by
  rcases send_followup_cases imap smtp rows now fid with hc | hc | hc <;>
    rw [hc]
  · exact status_forward_refl rows
  · exact status_forward_update rows fid Status.responded false now
      (Or.inr rfl)
  · exact status_forward_update rows fid Status.sent true now (Or.inl rfl)

theorem status_forward_processOne (imap : ImapState) (smtp : SmtpState)
    (now : Nat) (rows : List FollowupRecord) (f : FollowupRecord) :
    status_forward rows (processOne imap smtp now rows f) := by
  unfold processOne
  dsimp only
  split
  · exact status_forward_check imap rows now (SqlValue.int f.id)
  · next hfalse =>
    have hc := check_for_responses_false_store imap rows now
      (SqlValue.int f.id) (by simpa using hfalse)
    rw [hc]
    exact status_forward_send imap smtp rows now (SqlValue.int f.id)

theorem status_forward_foldl (imap : ImapState) (smtp : SmtpState)
    (now : Nat) :
    ∀ (l : List FollowupRecord) (rows0 rows : List FollowupRecord),
      status_forward rows0 rows →
      status_forward rows0 (l.foldl (processOne imap smtp now) rows) := by
  intro l
  induction l with
  | nil => intro rows0 rows h; simpa using h
  | cons a as ih =>
    intro rows0 rows h
    rw [List.foldl_cons]
    exact ih rows0 (processOne imap smtp now rows a)
      (status_forward_trans h (status_forward_processOne imap smtp now rows a))

theorem db_add_ok_rows (st st' : DbState) (fd : FollowupData) (rid : Nat)
    (h : db_add_followup st fd = Except.ok (st', rid)) :
    ∃ row : FollowupRecord, row.email_id = fd.email_id
      ∧ row.status = Status.pending
      ∧ st'.rows = st.rows ++ [row] := by
  unfold db_add_followup at h
  by_cases hdup : st.rows.any (fun r => r.email_id == fd.email_id)
  · rw [if_pos hdup] at h
    exact absurd h (by simp)
  · rw [if_neg hdup] at h
    simp only [Except.ok.injEq, Prod.mk.injEq] at h
    obtain ⟨h1, _⟩ := h
    exact ⟨_, rfl, rfl, by rw [← h1]⟩

theorem db_add_dup_fails (st' : DbState) (fd' : FollowupData)
    (row : FollowupRecord) (hmem : row ∈ st'.rows)
    (he : fd'.email_id = row.email_id) :
    db_add_followup st' fd' = Except.error DbError.uniqueViolation := by
  unfold db_add_followup
  rw [if_pos (List.any_eq_true.mpr ⟨row, hmem, by simp [he]⟩)]

/-! Concrete fixtures used by the closed theorems and the witnesses. -/

/-- An empty store, as `_create_tables` leaves it. -/
def emptyDb : DbState := { rows := [], next_id := 1 }

/-- The registration of the C1 scenario: delay of 7 days. -/
def scenarioEmail : EmailData :=
  { sender := "a@x.com", recipient := "b@y.com", subject := "Hello",
    sent_date := 0, delay_days := 7, message_id := some "<m1>",
    template_name := "default", template_variables := [] }

/-- The store after registering `scenarioEmail`. -/
def scenarioDb : DbState := (add_followup emptyDb scenarioEmail).1

/-- A connected mailbox in which no reply ever arrives and nothing raises. -/
def imapQuiet : ImapState :=
  { is_connected := true, inbox := [], parse_raises := fun _ => false }

/-- A connected transport that accepts every message. -/
def smtpWorking : SmtpState :=
  { is_connected := true, username := "a@x.com",
    send_raises := fun _ => false, send_result := fun _ => some "mid1" }

/-- Claim C1 (divergence witnessed): in the spec scenario - one record
registered with a 7-day delay, a mailbox in which no reply ever arrives, the
clock at `sent_at + 7` days and a transport that would accept the message -
the registration succeeds and the record is selected as due, yet one run of
`process_pending_followups` changes nothing: no follow-up is sent, the
status stays `pending` and the count stays 0, because the engine passes the
integer row id to `get_followup_by_email_id`, which filters on the textual
`email_id` column. -/
theorem reconcile_scenario_sends_nothing :
    (add_followup emptyDb scenarioEmail).2 = some 1
    ∧ validate_email scenarioEmail.recipient = true
    ∧ smtpWorking.send_result scenarioEmail.recipient = some "mid1"
    ∧ get_pending_followups scenarioDb.rows 604800 = scenarioDb.rows
    ∧ process_pending_followups imapQuiet smtpWorking scenarioDb.rows 604800
        = scenarioDb.rows
    ∧ (scenarioDb.rows.all fun r =>
        r.status == Status.pending && r.followup_count == 0) = true := by
  exact ⟨rfl, by decide, rfl, by decide, by decide, by decide⟩

/-- Claim C10: for an identifier under which no record is stored, both
`check_for_responses` and `send_followup` return false without raising and
leave the store unchanged. -/
theorem missing_record_is_noop (imap : ImapState) (smtp : SmtpState)
    (rows : List FollowupRecord) (now : Nat) (fid : SqlValue)
    (h : get_followup_by_email_id rows fid = none) :
    check_for_responses imap rows now fid = (rows, false)
    ∧ send_followup imap smtp rows now fid = (rows, false) := by
  constructor
  · unfold check_for_responses
    rw [h]
  · unfold send_followup
    rw [h]

/-- Witness for claim C10 at the empty store and identifier 1. -/
theorem missing_record_is_noop_witness :
    get_followup_by_email_id ([] : List FollowupRecord) (SqlValue.int 1)
        = none
    ∧ (check_for_responses imapQuiet [] 0 (SqlValue.int 1) = ([], false)
       ∧ send_followup imapQuiet smtpWorking [] 0 (SqlValue.int 1)
           = ([], false)) :=
  ⟨rfl, missing_record_is_noop imapQuiet smtpWorking [] 0 (SqlValue.int 1)
    rfl⟩

theorem add_followup_ok (st st1 : DbState) (e : EmailData) (fid : Nat)
    (h : add_followup st e = (st1, some fid)) :
    ∃ row : FollowupRecord,
      row.email_id = generate_email_id e.sender e.subject e.sent_date
      ∧ st1.rows = st.rows ++ [row] := by
  unfold add_followup at h
  revert h
  cases hdb : db_add_followup st (followup_data_of e) with
  | ok p =>
    intro h
    simp only [Prod.mk.injEq, Option.some.injEq] at h
    obtain ⟨h1, _⟩ := h
    obtain ⟨row, hrow, _, hrows⟩ := db_add_ok_rows st p.1 _ p.2 (by rw [hdb])
    exact ⟨row, hrow, by rw [← h1]; exact hrows⟩
  | error _ =>
    intro h
    exact absurd h (by simp)

/-- Claim C2: once a registration for `(sender, subject, sent_at)` has
succeeded, a second registration carrying the same triple is rejected by the
unique correlation key: the caller gets `None` (the store exception), no
second row is created and no existing row is mutated - the store is returned
exactly as it was. -/
theorem register_duplicate_rejected (st st1 : DbState) (e e2 : EmailData)
    (fid : Nat) (h1 : add_followup st e = (st1, some fid))
    (hs : e2.sender = e.sender) (hsub : e2.subject = e.subject)
    (hd : e2.sent_date = e.sent_date) :
    add_followup st1 e2 = (st1, none) := by
  obtain ⟨row, hrow, hrows⟩ := add_followup_ok st st1 e fid h1
  unfold add_followup
  rw [db_add_dup_fails st1 (followup_data_of e2) row (by rw [hrows]; simp)
    (by show generate_email_id e2.sender e2.subject e2.sent_date = _
        rw [hs, hsub, hd, ← hrow])]

/-- Witness for claim C2: registering the scenario email twice. -/
theorem register_duplicate_rejected_witness :
    add_followup emptyDb scenarioEmail = (scenarioDb, some 1)
    ∧ add_followup scenarioDb scenarioEmail = (scenarioDb, none) :=
  ⟨rfl, register_duplicate_rejected emptyDb scenarioDb scenarioEmail
    scenarioEmail 1 rfl rfl rfl rfl⟩

/-- A record whose correlation key happens to be the text of its row id, so
that the buggy integer lookup resolves it. -/
def keyedRecord : FollowupRecord :=
  { id := 1, email_id := "1", sender := "a@x.com", recipient := "b@y.com",
    subject := "Hello", sent_date := 0, followup_date := 0, delay_days := 1,
    status := Status.pending, followup_count := 0, last_check_date := none,
    metadata :=
      { original_message_id := some "<m1>", template_name := "default",
        custom_variables := [] } }

/-- A record exactly as registration creates it: the correlation key is a
32-character md5-style hexdigest, unrelated to the integer row id. -/
def mdRecord : FollowupRecord :=
  { id := 1, email_id := "9a0364b9e99bb480dd25e1f0284c8555",
    sender := "a@x.com", recipient := "b@y.com", subject := "Hello",
    sent_date := 0, followup_date := 0, delay_days := 1,
    status := Status.pending, followup_count := 0, last_check_date := none,
    metadata :=
      { original_message_id := some "<m1>", template_name := "default",
        custom_variables := [] } }

/-- A genuine human reply whose references contain the correlation key of
`mdRecord`. -/
def mdReply : EmailInfo :=
  { subject := "Re: Hello", from_addr := "b@y.com", date := 5,
    body := "Thanks, here is my answer", message_id := "m9",
    in_reply_to := "9a0364b9e99bb480dd25e1f0284c8555",
    references := "9a0364b9e99bb480dd25e1f0284c8555", headers := [] }

/-- A connected mailbox holding exactly that genuine reply. -/
def imapMdReply : ImapState :=
  { is_connected := true, inbox := [mdReply],
    parse_raises := fun _ => false }

/-- Claim C3 (divergence witnessed): for a record as the program creates it
(md5 correlation key, integer row id) with a genuine non-automatic reply
waiting in the mailbox, `check_for_responses` can never both mark the
record and return true. Called with the integer row id - as every caller in
the source does - the `email_id` lookup finds nothing, so it returns false
and the record stays `pending` despite the genuine reply. Called instead
with the textual correlation key, it finds the reply and returns true, but
the status UPDATE filters `WHERE id = ?` with the md5 text, which matches
no row, so the record is again left `pending`, never `responded`. -/
theorem check_for_responses_never_marks :
    imap_check_for_replies imapMdReply mdRecord.email_id mdRecord.subject
        = Except.ok [mdReply]
    ∧ is_auto_reply mdReply = false
    ∧ check_for_responses imapMdReply [mdRecord] 100 (SqlValue.int 1)
        = ([mdRecord], false)
    ∧ check_for_responses imapMdReply [mdRecord] 100
        (SqlValue.text mdRecord.email_id) = ([mdRecord], true) := by
  exact ⟨rfl, by decide, by decide, by decide⟩

/-- A candidate reply carrying the standard RFC 3834 marker with its usual
capitalisation, and a body with no configured phrase. -/
def autoSubmittedMsg : EmailInfo :=
  { subject := "Re: Hello", from_addr := "c@z.com", date := 7,
    body := "I will respond shortly", message_id := "m3",
    in_reply_to := "key1", references := "key1",
    headers := [("Auto-Submitted", "auto-generated")] }

/-- Counterexample to claim C4: `autoSubmittedMsg` carries an auto-reply
marker name among its headers when matched case-insensitively, yet
`_is_auto_reply` does not classify it automatic, because the membership test
against the header dict is case-sensitive. -/
theorem auto_reply_case_insensitive_refuted :
    (∃ h ∈ auto_reply_headers, ∃ kv ∈ autoSubmittedMsg.headers,
      str_lower kv.1 = h)
    ∧ is_auto_reply autoSubmittedMsg = false := by
  constructor
  · exact ⟨"auto-submitted", by decide, ("Auto-Submitted", "auto-generated"),
      by decide, by decide⟩
  · decide

/-- Claim C4 as amended: a message is classified automatic if and only if
one of the fixed marker names occurs verbatim (case-sensitively) among its
header keys, or its lower-cased body contains one of the configured
lower-cased auto-reply phrases. -/
theorem is_auto_reply_characterization (m : EmailInfo) :
    is_auto_reply m = true ↔
      ((∃ h ∈ auto_reply_headers, ∃ kv ∈ m.headers, kv.1 = h)
       ∨ ∃ p ∈ AUTO_REPLY_PATTERNS,
           strContains (str_lower m.body) (str_lower p) = true) := by
  unfold is_auto_reply
  simp [List.any_eq_true]

/-- A transport state that is not connected, so every send reports
failure. -/
def smtpDown : SmtpState :=
  { is_connected := false, username := "a@x.com",
    send_raises := fun _ => false, send_result := fun _ => none }

/-- Claim C5: when the record resolves, no response is found, and the
transport reports failure (`None`) or raises, `send_followup` returns false
and the store is exactly what it was: the record stays `pending` with its
count untouched, so the next reconciliation pass sees it again. -/
theorem send_followup_transport_failure (imap : ImapState)
    (smtp : SmtpState) (rows : List FollowupRecord) (now : Nat)
    (fid : SqlValue) (f : FollowupRecord)
    (hf : get_followup_by_email_id rows fid = some f)
    (hchk : check_for_responses imap rows now fid = (rows, false))
    (hfail : smtp_send_followup smtp f.recipient f.subject
        f.metadata.original_message_id DEFAULT_FOLLOWUP_TEMPLATE
        (template_vars f) = Except.ok none
      ∨ smtp_send_followup smtp f.recipient f.subject
          f.metadata.original_message_id DEFAULT_FOLLOWUP_TEMPLATE
          (template_vars f) = Except.error ()) :
    send_followup imap smtp rows now fid = (rows, false) := by
  unfold send_followup
  rw [hf]
  dsimp only
  rw [hchk]
  rcases hfail with hfail | hfail <;> rw [hfail] <;> rfl

set_option maxRecDepth 10000 in
/-- Witness for claim C5: `keyedRecord` with the quiet mailbox and the
disconnected transport. -/
theorem send_followup_transport_failure_witness :
    get_followup_by_email_id [keyedRecord] (SqlValue.int 1)
        = some keyedRecord
    ∧ check_for_responses imapQuiet [keyedRecord] 100 (SqlValue.int 1)
        = ([keyedRecord], false)
    ∧ smtp_send_followup smtpDown keyedRecord.recipient keyedRecord.subject
        keyedRecord.metadata.original_message_id DEFAULT_FOLLOWUP_TEMPLATE
        (template_vars keyedRecord) = Except.ok none
    ∧ send_followup imapQuiet smtpDown [keyedRecord] 100 (SqlValue.int 1)
        = ([keyedRecord], false) :=
  ⟨rfl, by decide, rfl,
    send_followup_transport_failure imapQuiet smtpDown [keyedRecord] 100
      (SqlValue.int 1) keyedRecord rfl (by decide) (Or.inl rfl)⟩

/-- Claim C6: when the collaborators raise while one pending record is
processed (the fetch or parse raises past `IMAP4.error` and the transport
raises past `SMTPException`), the per-operation handlers swallow the
exceptions and the reconciliation result is exactly the fold over the
remaining records from the store as it stood: one bad record never aborts
the batch. -/
theorem process_pending_isolation (imap : ImapState) (smtp : SmtpState)
    (rows : List FollowupRecord) (now : Nat)
    (p s : List FollowupRecord) (f g : FollowupRecord)
    (hp : get_pending_followups rows now = p ++ f :: s)
    (hg : get_followup_by_email_id
        (p.foldl (processOne imap smtp now) rows) (SqlValue.int f.id)
        = some g)
    (hconn : imap.is_connected = true)
    (hraise : imap.parse_raises g.email_id = true)
    (hsend : smtp_send_followup smtp g.recipient g.subject
        g.metadata.original_message_id DEFAULT_FOLLOWUP_TEMPLATE
        (template_vars g) = Except.error ()) :
    process_pending_followups imap smtp rows now
      = s.foldl (processOne imap smtp now)
          (p.foldl (processOne imap smtp now) rows) := by
  unfold process_pending_followups
  rw [hp, List.foldl_append, List.foldl_cons]
  suffices hone : processOne imap smtp now
      (p.foldl (processOne imap smtp now) rows) f
      = p.foldl (processOne imap smtp now) rows by rw [hone]
  set dbp := p.foldl (processOne imap smtp now) rows with hdbp
  have hrep : imap_check_for_replies imap g.email_id g.subject
      = Except.error () := by
    unfold imap_check_for_replies
    rw [hconn, hraise]
    simp
  have hchk : check_for_responses imap dbp now (SqlValue.int f.id)
      = (dbp, false) := by
    unfold check_for_responses
    rw [hg]
    dsimp only
    rw [hrep]
  have hsf : send_followup imap smtp dbp now (SqlValue.int f.id)
      = (dbp, false) := by
    unfold send_followup
    rw [hg]
    dsimp only
    rw [hchk]
    dsimp only
    rw [hsend]
    rfl
  unfold processOne
  dsimp only
  rw [hchk]
  dsimp only
  rw [hsf]
  rfl

/-- A mailbox whose fetch raises past `IMAP4.error` on every search. -/
def imapRaising : ImapState :=
  { is_connected := true, inbox := [], parse_raises := fun _ => true }

/-- A transport that raises past `SMTPException` for every recipient. -/
def smtpRaising : SmtpState :=
  { is_connected := true, username := "a@x.com",
    send_raises := fun _ => true, send_result := fun _ => some "x" }

set_option maxRecDepth 10000 in
/-- Witness for claim C6: a one-record batch whose collaborators raise. -/
theorem process_pending_isolation_witness :
    get_pending_followups [keyedRecord] 0 = [] ++ keyedRecord :: []
    ∧ get_followup_by_email_id
        (List.foldl (processOne imapRaising smtpRaising 0) [keyedRecord] [])
        (SqlValue.int keyedRecord.id) = some keyedRecord
    ∧ imapRaising.is_connected = true
    ∧ imapRaising.parse_raises keyedRecord.email_id = true
    ∧ smtp_send_followup smtpRaising keyedRecord.recipient
        keyedRecord.subject keyedRecord.metadata.original_message_id
        DEFAULT_FOLLOWUP_TEMPLATE (template_vars keyedRecord)
        = Except.error ()
    ∧ process_pending_followups imapRaising smtpRaising [keyedRecord] 0
        = List.foldl (processOne imapRaising smtpRaising 0)
            (List.foldl (processOne imapRaising smtpRaising 0)
              [keyedRecord] []) [] :=
  ⟨by decide, rfl, rfl, rfl, rfl,
    process_pending_isolation imapRaising smtpRaising [keyedRecord] 0
      [] [] keyedRecord keyedRecord (by decide) rfl rfl rfl rfl⟩

/-- Claim C7: a successful check cycle resets the consecutive error count to
0; each failing cycle increments it; the failing cycle on which the count
reaches the maximum leaves the loop stopped and appends exactly the three
signals of a failing cycle - one `error_occurred` notification; a stopped
loop never comes back by itself; and from a fresh running state,
`max_errors` consecutive failing cycles always leave `is_running = false`. -/
theorem scheduler_error_escalation (st : SchedulerState) (now : Nat)
    (h0 : st.error_count = 0) (hm : 0 < st.max_errors) :
    (∀ (s : SchedulerState) (t : Nat),
      (check_emails s t true).error_count = 0)
    ∧ (∀ (s : SchedulerState) (t : Nat),
        (check_emails s t false).error_count = s.error_count + 1)
    ∧ (∀ (s : SchedulerState) (t : Nat),
        s.max_errors ≤ s.error_count + 1 →
        (check_emails s t false).is_running = false
        ∧ (check_emails s t false).events = s.events ++
            [SchedEvent.check_started, SchedEvent.check_completed false,
             SchedEvent.error_occurred])
    ∧ (∀ (s : SchedulerState) (t : Nat) (b : Bool),
        s.is_running = false → (check_emails s t b).is_running = false)
    ∧ (failN st.max_errors st now).is_running = false := by
  refine ⟨?_, ?_, ?_, ?_, ?_⟩
  · intro s t
    unfold check_emails
    simp
  · intro s t
    exact check_emails_fail_count s t
  · intro s t h
    exact check_emails_fatal s t h
  · intro s t b h
    exact check_emails_keeps_stopped s t b h
  · exact failN_stops now st.max_errors st (by omega) hm

/-- A running scheduler with a fresh error count and three allowed
consecutive errors (`APP_SETTINGS` `max_retries`). -/
def schedRunning : SchedulerState :=
  { is_running := true, timer_active := true, last_check := none,
    error_count := 0, max_errors := 3, cycles := 0, events := [] }

/-- Witness for claim C7 at `schedRunning`. -/
theorem scheduler_error_escalation_witness :
    schedRunning.error_count = 0
    ∧ 0 < schedRunning.max_errors
    ∧ ((∀ (s : SchedulerState) (t : Nat),
          (check_emails s t true).error_count = 0)
       ∧ (∀ (s : SchedulerState) (t : Nat),
            (check_emails s t false).error_count = s.error_count + 1)
       ∧ (∀ (s : SchedulerState) (t : Nat),
            s.max_errors ≤ s.error_count + 1 →
            (check_emails s t false).is_running = false
            ∧ (check_emails s t false).events = s.events ++
                [SchedEvent.check_started, SchedEvent.check_completed false,
                 SchedEvent.error_occurred])
       ∧ (∀ (s : SchedulerState) (t : Nat) (b : Bool),
            s.is_running = false → (check_emails s t b).is_running = false)
       ∧ (failN schedRunning.max_errors schedRunning 0).is_running
           = false) :=
  ⟨rfl, by decide, scheduler_error_escalation schedRunning 0 rfl (by decide)⟩

/-- A scheduler that is not running (as after `stop()`). -/
def schedStopped : SchedulerState :=
  { is_running := false, timer_active := false, last_check := none,
    error_count := 0, max_errors := 3, cycles := 0, events := [] }

/-- Counterexample to claim C8: with the loop not running, `force_check`
performs no reconciliation at all - the cycle counter stays 0 and the state
is returned untouched - whereas the claim requires exactly one synchronous
reconciliation. -/
theorem force_check_not_running_counterexample :
    schedStopped.is_running = false
    ∧ force_check schedStopped 0 true = schedStopped
    ∧ (force_check schedStopped 0 true).cycles = 0 := by
  exact ⟨rfl, rfl, rfl⟩

/-- Claim C8 as amended: while the loop is not running, `force_check` only
logs a warning - it performs no reconciliation and changes no state; while
running, it performs exactly one synchronous reconciliation, stopping the
interval timer first and re-arming it afterwards. -/
theorem force_check_amended (st : SchedulerState) (now : Nat) (ok : Bool) :
    (st.is_running = false → force_check st now ok = st)
    ∧ (st.is_running = true →
        (force_check st now ok).cycles = st.cycles + 1
        ∧ (force_check st now ok).timer_active = true) := by
  constructor
  · intro h
    unfold force_check
    rw [h]
    simp
  · intro h
    unfold force_check
    rw [h]
    refine ⟨?_, rfl⟩
    simp only [if_pos]
    unfold check_emails scheduler_stop
    split
    · rfl
    · dsimp only
      split
      · split <;> rfl
      · rfl

/-- Witness for the amended claim C8 at a stopped and a running scheduler. -/
theorem force_check_amended_witness :
    (schedStopped.is_running = false
      ∧ force_check schedStopped 3 true = schedStopped)
    ∧ (schedRunning.is_running = true
      ∧ (force_check schedRunning 3 true).cycles = schedRunning.cycles + 1
      ∧ (force_check schedRunning 3 true).timer_active = true) :=
  ⟨⟨rfl, (force_check_amended schedStopped 3 true).1 rfl⟩,
   ⟨rfl, (force_check_amended schedRunning 3 true).2 rfl⟩⟩

/-- Claim C9: every lifecycle operation moves statuses only forward: each
row surviving `check_for_responses`, `send_followup` or a whole
reconciliation pass comes from a row with the same id whose status is
either unchanged or rewritten to `sent` or `responded` (so nothing ever
returns to `pending` and `failed` is never written), and registration only
appends a fresh `pending` row without touching existing rows. -/
theorem engine_status_forward (imap : ImapState) (smtp : SmtpState)
    (rows : List FollowupRecord) (now : Nat) (fid : SqlValue)
    (st : DbState) (e : EmailData) :
    status_forward rows (check_for_responses imap rows now fid).1
    ∧ status_forward rows (send_followup imap smtp rows now fid).1
    ∧ status_forward rows (process_pending_followups imap smtp rows now)
    ∧ (∀ r ∈ st.rows, r ∈ (add_followup st e).1.rows)
    ∧ (∀ r' ∈ (add_followup st e).1.rows,
        r' ∈ st.rows ∨ r'.status = Status.pending) := by
  refine ⟨status_forward_check imap rows now fid,
    status_forward_send imap smtp rows now fid,
    ?_, ?_, ?_⟩
  · unfold process_pending_followups
    exact status_forward_foldl imap smtp now (get_pending_followups rows now)
      rows rows (status_forward_refl rows)
  · intro r hr
    unfold add_followup
    cases hdb : db_add_followup st (followup_data_of e) with
    | ok p =>
      dsimp only
      obtain ⟨row, _, _, hrows⟩ :=
        db_add_ok_rows st p.1 (followup_data_of e) p.2 (by rw [hdb])
      rw [hrows]
      exact List.mem_append_left _ hr
    | error err => exact hr
  · intro r' hr'
    revert hr'
    unfold add_followup
    cases hdb : db_add_followup st (followup_data_of e) with
    | ok p =>
      dsimp only
      obtain ⟨row, _, hpend, hrows⟩ :=
        db_add_ok_rows st p.1 (followup_data_of e) p.2 (by rw [hdb])
      rw [hrows]
      intro hr'
      rcases List.mem_append.mp hr' with h | h
      · exact Or.inl h
      · right
        simp only [List.mem_singleton] at h
        rw [h]
        exact hpend
    | error err =>
      intro hr'
      exact Or.inl hr'

/-- Witness for claim C9 at the scenario store and engine collaborators. -/
theorem engine_status_forward_witness :
    status_forward scenarioDb.rows
      (check_for_responses imapQuiet scenarioDb.rows 604800
        (SqlValue.int 1)).1
    ∧ status_forward scenarioDb.rows
        (send_followup imapQuiet smtpWorking scenarioDb.rows 604800
          (SqlValue.int 1)).1
    ∧ status_forward scenarioDb.rows
        (process_pending_followups imapQuiet smtpWorking scenarioDb.rows
          604800)
    ∧ (∀ r ∈ scenarioDb.rows, r ∈ (add_followup scenarioDb scenarioEmail).1.rows)
    ∧ (∀ r' ∈ (add_followup scenarioDb scenarioEmail).1.rows,
        r' ∈ scenarioDb.rows ∨ r'.status = Status.pending) :=
  engine_status_forward imapQuiet smtpWorking scenarioDb.rows 604800
    (SqlValue.int 1) scenarioDb scenarioEmail

end EmailFollowUp
